import Mathlib

/-!
Verification of the `orcid-parser` TypeScript library (variants in
`src/constants.ts`, `src/orcid-parser.ts` and the legacy `src/index.ts`)
against its natural-language specification.

JavaScript strings are modelled as `List Char` (ASCII is all the library
manipulates); JavaScript numbers reaching the parsed records are integers
or the `NaN` sentinel, modelled by `JsNum`.
-/

/-- A JavaScript string, modelled as its list of characters. -/
abbrev JStr := List Char

/-- Coerce a Lean string literal to the `JStr` model. -/
def jstr (s : String) : JStr := s.data

/-- A JavaScript number as it occurs in parsed records: either `NaN`
(the result of coercing an absent or non-numeric value) or an integer.
The registry delivers integral years, months, days and put-codes, so the
model restricts the numeric payload to `Int`. -/
inductive JsNum where
  | nan : JsNum
  | num (n : Int) : JsNum
deriving DecidableEq

/-- ASCII whitespace recognised by the model of JavaScript `trim` and of
the `\s` regex class (space, tab, LF, VT, FF, CR). -/
def jsIsWs (c : Char) : Bool :=
  c = ' ' || c = '\t' || c = '\n' || c = '\x0b' || c = '\x0c' || c = '\r'

/-- Model of `String.prototype.trim` (ASCII whitespace). -/
def jsTrim (s : JStr) : JStr :=
  (s.dropWhile jsIsWs).reverse.dropWhile jsIsWs |>.reverse

/-- ASCII uppercase of one character, as `toUpperCase` acts on the
library's ASCII vocabulary strings. -/
def jsUpChar (c : Char) : Char :=
  if 'a' ≤ c ∧ c ≤ 'z' then Char.ofNat (c.toNat - 32) else c

/-- Model of `String.prototype.toUpperCase` restricted to ASCII. -/
def jsToUpper (s : JStr) : JStr := s.map jsUpChar

/-- Worker for the model of `str.replace(/\s+/g, "_")`: `prevWs` records
whether the previous character belonged to a whitespace run already
replaced by an underscore. -/
def wsCollapse (prevWs : Bool) : JStr → JStr
  | [] => []
  | c :: rest =>
    if jsIsWs c then
      if prevWs then wsCollapse true rest else '_' :: wsCollapse true rest
    else c :: wsCollapse false rest

/-- Model of `str.replace(/\s+/g, "_")`: every maximal run of whitespace
characters collapses to a single underscore. -/
def jsWsRunsToUnderscore (s : JStr) : JStr := wsCollapse false s

/-- The `WORK_TYPES` constant object of `src/constants.ts`: the ordered
association of constant names to work-type string values, including the
legacy aliases and the `OTHER` / `UNSUPPORTED` sentinels. -/
def WORK_TYPES : List (JStr × JStr) :=
  [ (jstr "ARTICLE", jstr "journal-article")
  , (jstr "BOOK", jstr "book")
  , (jstr "BOOK_CHAPTER", jstr "book-chapter")
  , (jstr "CONFERENCE_PAPER", jstr "conference-paper")
  , (jstr "CONFERENCE_PROCEEDINGS", jstr "conference-proceedings")
  , (jstr "CONFERENCE_POSTER", jstr "conference-poster")
  , (jstr "CONFERENCE_PRESENTATION", jstr "conference-presentation")
  , (jstr "CONFERENCE_OUTPUT", jstr "conference-output")
  , (jstr "DISSERTATION", jstr "dissertation-thesis")
  , (jstr "PREPRINT", jstr "preprint")
  , (jstr "WORKING_PAPER", jstr "working-paper")
  , (jstr "ANNOTATION", jstr "annotation")
  , (jstr "BOOK_REVIEW", jstr "book-review")
  , (jstr "JOURNAL_ISSUE", jstr "journal-issue")
  , (jstr "REVIEW", jstr "review")
  , (jstr "BLOG_POST", jstr "blog-post")
  , (jstr "DICTIONARY_ENTRY", jstr "dictionary-entry")
  , (jstr "ENCYCLOPEDIA_ENTRY", jstr "encyclopedia-entry")
  , (jstr "MAGAZINE_ARTICLE", jstr "magazine-article")
  , (jstr "NEWSPAPER_ARTICLE", jstr "newspaper-article")
  , (jstr "PUBLIC_SPEECH", jstr "public-speech")
  , (jstr "REPORT", jstr "report")
  , (jstr "WEBSITE", jstr "website")
  , (jstr "ARTISTIC_PERFORMANCE", jstr "artistic-performance")
  , (jstr "DESIGN", jstr "design")
  , (jstr "IMAGE", jstr "image")
  , (jstr "ONLINE_RESOURCE", jstr "online-resource")
  , (jstr "MOVING_IMAGE", jstr "moving-image")
  , (jstr "MUSICAL_COMPOSITION", jstr "musical-composition")
  , (jstr "SOUND", jstr "sound")
  , (jstr "CARTOGRAPHIC_MATERIAL", jstr "cartographic-material")
  , (jstr "CLINICAL_STUDY", jstr "clinical-study")
  , (jstr "DATASET", jstr "data-set")
  , (jstr "DATA_MANAGEMENT_PLAN", jstr "data-management-plan")
  , (jstr "PHYSICAL_OBJECT", jstr "physical-object")
  , (jstr "RESEARCH_TECHNIQUE", jstr "research-technique")
  , (jstr "RESEARCH_TOOL", jstr "research-tool")
  , (jstr "SOFTWARE", jstr "software")
  , (jstr "INVENTION", jstr "invention")
  , (jstr "LICENSE", jstr "license")
  , (jstr "PATENT", jstr "patent")
  , (jstr "REGISTERED_COPYRIGHT", jstr "registered-copyright")
  , (jstr "STANDARDS_AND_POLICY", jstr "standards-and-policy")
  , (jstr "TRADEMARK", jstr "trademark")
  , (jstr "LECTURE_SPEECH", jstr "lecture-speech")
  , (jstr "LEARNING_OBJECT", jstr "learning-object")
  , (jstr "SUPERVISED_STUDENT_PUBLICATION", jstr "supervised-student-publication")
  , (jstr "OTHER", jstr "other")
  , (jstr "UNSUPPORTED", jstr "unsupported")
  , (jstr "CONFERENCE_ABSTRACT", jstr "conference-abstract")
  , (jstr "DISCLOSURE", jstr "disclosure")
  , (jstr "EDITED_BOOK", jstr "edited-book")
  , (jstr "MANUAL", jstr "manual")
  , (jstr "NEWSLETTER_ARTICLE", jstr "newsletter-article")
  , (jstr "SPIN_OFF_COMPANY", jstr "spin-off-company")
  , (jstr "TECHNICAL_STANDARDS", jstr "technical-standards")
  , (jstr "TEST", jstr "test") ]

/-- `Object.values(WORK_TYPES)`: the work-type vocabulary values. -/
def workTypeValues : List JStr := WORK_TYPES.map (·.2)

/-- `(WORK_TYPES as Record<string, WorkType>)[key]`: property lookup on
the constant object. -/
def workTypesLookup (key : JStr) : Option JStr :=
  (WORK_TYPES.find? (fun p => p.1 = key)).map (·.2)

/-- The normalised key `str.trim().toUpperCase().replace(/\s+/g, "_")`
computed by the first stage of `WorkType.fromString`. -/
def fromStringKey (s : JStr) : JStr :=
  jsWsRunsToUnderscore (jsToUpper (jsTrim s))

/-- `WorkType.fromString` from `src/constants.ts`: look the normalised
key up as a constant name (each value is a nonempty string, hence truthy,
so a hit is returned directly); otherwise return the original input when
it is itself one of the vocabulary values, else `'unsupported'`. -/
def WorkType.fromString (str : JStr) : JStr :=
  match workTypesLookup (fromStringKey str) with
  | some value => value
  | none => if str ∈ workTypeValues then str else jstr "unsupported"

/-- Prefix stripped by the identifier normalizer (the `https` arm of the
regex `^https?:\/\/orcid\.org\//`). -/
def ORCID_URL_HTTPS : JStr := jstr "https://orcid.org/"

/-- Prefix stripped by the identifier normalizer (the `http` arm). -/
def ORCID_URL_HTTP : JStr := jstr "http://orcid.org/"

/-- `_sanitizeOrcidId` from `src/orcid-parser.ts`:
`id.replace(/^https?:\/\/orcid\.org\//, '')`. The regex is anchored and
not global, so it removes at most one leading occurrence of either
prefix form and leaves every other input unchanged. -/
def sanitizeOrcidId (id : JStr) : JStr :=
  if ORCID_URL_HTTPS.isPrefixOf id then id.drop ORCID_URL_HTTPS.length
  else if ORCID_URL_HTTP.isPrefixOf id then id.drop ORCID_URL_HTTP.length
  else id

/-- A primitive JSON value as it can occur in a numeric-bearing `value`
slot of the registry payload: a string, a number, or a JSON `null`. -/
inductive JsPrim where
  | str (s : JStr) : JsPrim
  | num (n : Int) : JsPrim
  | null : JsPrim
deriving DecidableEq

/-- Value of a nonempty all-digit run, `none` otherwise. -/
def digitsToNat (s : JStr) : Option Nat :=
  if s = [] then none
  else s.foldl
    (fun acc c =>
      match acc with
      | none => none
      | some n => if c.isDigit then some (n * 10 + (c.toNat - 48)) else none)
    (some 0)

/-- An optionally signed decimal integer literal, evaluated. -/
def intLiteralToInt (s : JStr) : Option Int :=
  match s with
  | '+' :: rest => (digitsToNat rest).map (fun n => (n : Int))
  | '-' :: rest => (digitsToNat rest).map (fun n => -(n : Int))
  | _ => (digitsToNat s).map (fun n => (n : Int))

/-- Model of JavaScript `Number(string)` on the integral literals the
registry emits for years, months, days and put-codes: the string is
trimmed; an empty or whitespace-only string coerces to `0`; an optionally
signed decimal digit run is its value; anything else is `NaN`.
(Fractional, hexadecimal and exponent forms are outside the model.) -/
def jsStringToNumber (s : JStr) : JsNum :=
  let t := jsTrim s
  if t = [] then .num 0
  else
    match intLiteralToInt t with
    | some n => .num n
    | none => .nan

/-- Model of JavaScript `Number(x)` on the result of the optional-chain
reads feeding the parser's numeric fields: `undefined` gives `NaN`,
`null` gives `0`, a number is itself, a string parses as above. -/
def jsNumberOf : Option JsPrim → JsNum
  | none => .nan
  | some .null => .num 0
  | some (.num n) => .num n
  | some (.str s) => jsStringToNumber s

/-- A raw `{ value: ... }` box whose value slot may hold any primitive
(the shape of `publication-date.year` and the epoch date fields). -/
structure VBox where
  value : Option JsPrim
deriving DecidableEq

/-- A raw `{ value: ... }` box carrying a registry string
(titles, source names, URLs, journal titles, country). -/
structure SBox where
  value : Option JStr
deriving DecidableEq

/-- The optional chain `box?.value` on a `VBox`. -/
def vboxValue (b : Option VBox) : Option JsPrim := b.bind (·.value)

/-- The optional chain `box?.value` on an `SBox`. -/
def sboxValue (b : Option SBox) : Option JStr := b.bind (·.value)

/-- The raw `title` block: `title.{title,subtitle,translated-title}`. -/
structure RawTitle where
  title : Option SBox
  subtitle : Option SBox
  translatedTitle : Option SBox
deriving DecidableEq

/-- The raw `publication-date` block with its `year`/`month`/`day`
component boxes, any of which may be absent (or JSON `null`, which the
optional-chain reads treat identically). -/
structure RawPubDate where
  year : Option VBox
  month : Option VBox
  day : Option VBox
deriving DecidableEq

/-- The raw `source` block (`source.source-name.value`). -/
structure RawSource where
  sourceName : Option SBox
deriving DecidableEq

/-- One raw `external-id` entry. -/
structure RawExternalId where
  type : Option JStr
  value : Option JStr
  url : Option SBox
  relationship : Option JStr
deriving DecidableEq

/-- The raw `external-ids` block wrapping the `external-id` array. -/
structure RawExternalIds where
  externalId : Option (List RawExternalId)
deriving DecidableEq

/-- The raw `citation` block. -/
structure RawCitation where
  citationType : Option JStr
  citationValue : Option JStr
deriving DecidableEq

/-- The raw `contributor-attributes` block. -/
structure RawContribAttributes where
  contributorRole : Option JStr
  contributorSequence : Option JStr
deriving DecidableEq

/-- One raw `contributor` entry. -/
structure RawContributor where
  creditName : Option SBox
  contributorAttributes : Option RawContribAttributes
deriving DecidableEq

/-- The raw `contributors` block wrapping the `contributor` array. -/
structure RawContributors where
  contributor : Option (List RawContributor)
deriving DecidableEq

/-- One raw work object as consumed by `_parseWorkSummary`/`_parseWork`
(summary fields plus the work-only fields; a summary payload simply has
the latter absent). -/
structure RawWork where
  putCode : Option JsPrim
  createdDate : Option VBox
  lastModifiedDate : Option VBox
  source : Option RawSource
  title : Option RawTitle
  externalIds : Option RawExternalIds
  publicationDate : Option RawPubDate
  journalTitle : Option SBox
  url : Option SBox
  shortDescription : Option JStr
  citation : Option RawCitation
  type : Option JStr
  contributors : Option RawContributors
  languageCode : Option JStr
  country : Option SBox
deriving DecidableEq

/-- Parsed external identifier (`ExternalId` of `src/orcid-parser.ts`). -/
structure ExternalId where
  type : Option JStr
  value : Option JStr
  url : Option JStr
  relationship : Option JStr
deriving DecidableEq

/-- Parsed contributor (`Contributor` of `src/orcid-parser.ts`). -/
structure Contributor where
  name : Option JStr
  role : Option JStr
  sequence : Option JStr
deriving DecidableEq

/-- Parsed citation block. -/
structure Citation where
  type : Option JStr
  value : Option JStr
deriving DecidableEq

/-- `WorkSummary` of `src/orcid-parser.ts`. Numeric publication fields
hold a JavaScript number (possibly `NaN`) when present; `none` models a
field left `undefined` on a hand-constructed object (the parser always
assigns a number). `createdDate`/`lastModifiedDate` hold the epoch
milliseconds of the constructed `Date`. -/
structure WorkSummary where
  putCode : JsNum
  createdDate : Int
  lastModifiedDate : Int
  source : Option JStr
  title : Option JStr
  subtitle : Option JStr
  translatedTitle : Option JStr
  externalIds : List ExternalId
  publicationYear : Option JsNum
  publicationMonth : Option JsNum
  publicationDay : Option JsNum
  journalTitle : Option JStr
  url : Option JStr
deriving DecidableEq

/-- `Work` of `src/orcid-parser.ts`, extending the summary shape. `type`
is `string | null` there; `none` models `null`/`undefined`. -/
structure Work extends WorkSummary where
  shortDescription : Option JStr
  citation : Option Citation
  type : Option JStr
  contributors : List Contributor
  languageCode : Option JStr
  country : Option JStr
deriving DecidableEq

/-- `_parseEpochDate`: a value that is already a number is used as the
millisecond count, anything else goes through `Number`; a non-finite
result (`NaN`) falls back to `new Date(0)`, i.e. epoch milliseconds 0. -/
def parseEpochDate (v : Option JsPrim) : Int :=
  let ms :=
    match v with
    | some (.num n) => JsNum.num n
    | w => jsNumberOf w
  match ms with
  | .num n => n
  | .nan => 0

/-- `_parseExternalIds`: map each raw entry independently;
`externalIds?.['external-id']?.map(...) || []` yields `[]` when the
chain is absent. -/
def parseExternalIds (e : Option RawExternalIds) : List ExternalId :=
  match e.bind (·.externalId) with
  | some ids =>
    ids.map (fun id =>
      { type := id.type, value := id.value, url := sboxValue id.url,
        relationship := id.relationship })
  | none => []

/-- `_parseContributors`: same shape as `_parseExternalIds`. -/
def parseContributors (c : Option RawContributors) : List Contributor :=
  match c.bind (·.contributor) with
  | some cs =>
    cs.map (fun c =>
      { name := sboxValue c.creditName,
        role := c.contributorAttributes.bind (·.contributorRole),
        sequence := c.contributorAttributes.bind (·.contributorSequence) })
  | none => []

/-- `_parseCitation`: `citation ? {type, value} : undefined` (a `null`
citation block is falsy, so absence and `null` coincide with `none`). -/
def parseCitation (c : Option RawCitation) : Option Citation :=
  c.map (fun cit => { type := cit.citationType, value := cit.citationValue })

/-- `_parseWorkSummary` of `src/orcid-parser.ts`. Every numeric
publication field is `Number(pubDate?.x?.value)`; every string field is
the bare optional-chain read. -/
def parseWorkSummary (data : RawWork) : WorkSummary :=
  let pubDate := data.publicationDate
  { putCode := jsNumberOf data.putCode
  , createdDate := parseEpochDate (vboxValue data.createdDate)
  , lastModifiedDate := parseEpochDate (vboxValue data.lastModifiedDate)
  , source := sboxValue (data.source.bind (·.sourceName))
  , title := sboxValue (data.title.bind (·.title))
  , subtitle := sboxValue (data.title.bind (·.subtitle))
  , translatedTitle := sboxValue (data.title.bind (·.translatedTitle))
  , externalIds := parseExternalIds data.externalIds
  , publicationYear := some (jsNumberOf (vboxValue (pubDate.bind (·.year))))
  , publicationMonth := some (jsNumberOf (vboxValue (pubDate.bind (·.month))))
  , publicationDay := some (jsNumberOf (vboxValue (pubDate.bind (·.day))))
  , journalTitle := sboxValue data.journalTitle
  , url := sboxValue data.url }

/-- `_parseWork` of `src/orcid-parser.ts`: spreads `_parseWorkSummary`
and adds the work-only fields; in particular `type: data.type` stores
the raw type string verbatim with no vocabulary check. -/
def parseWork (data : RawWork) : Work :=
  { toWorkSummary := parseWorkSummary data
  , shortDescription := data.shortDescription
  , citation := parseCitation data.citation
  , type := data.type
  , contributors := parseContributors data.contributors
  , languageCode := data.languageCode
  , country := sboxValue data.country }

/-- The `WORK_TYPES` constant of the legacy `src/index.ts` module (15
entries, including the `OTHER` and `UNSUPPORTED` sentinels). -/
def WORK_TYPES_legacy : List (JStr × JStr) :=
  [ (jstr "ARTICLE", jstr "journal-article")
  , (jstr "BOOK", jstr "book")
  , (jstr "BOOK_CHAPTER", jstr "book-chapter")
  , (jstr "CONFERENCE_PAPER", jstr "conference-paper")
  , (jstr "CONFERENCE_ABSTRACT", jstr "conference-abstract")
  , (jstr "DISSERTATION", jstr "dissertation-thesis")
  , (jstr "PREPRINT", jstr "preprint")
  , (jstr "REPORT", jstr "report")
  , (jstr "DATASET", jstr "data-set")
  , (jstr "SOFTWARE", jstr "research-software")
  , (jstr "PATENT", jstr "patent")
  , (jstr "REVIEW", jstr "review")
  , (jstr "WORKING_PAPER", jstr "working-paper")
  , (jstr "OTHER", jstr "other")
  , (jstr "UNSUPPORTED", jstr "unsupported") ]

/-- `Object.values` of the legacy vocabulary. -/
def legacyWorkTypeValues : List JStr := WORK_TYPES_legacy.map (·.2)

/-- `_extractTitle` of legacy `src/index.ts`:
`titleObj?.title?.value || 'Untitled'` — `||` substitutes the
placeholder for an absent chain and also for an empty (falsy) string. -/
def legacyExtractTitle (titleObj : Option RawTitle) : JStr :=
  match sboxValue (titleObj.bind (·.title)) with
  | some s => if s = [] then jstr "Untitled" else s
  | none => jstr "Untitled"

/-- The `Work` record shape of legacy `src/index.ts` (title always a
string, `type` always a vocabulary member by typing). -/
structure LegacyWork where
  putCode : JsNum
  createdDate : Int
  lastModifiedDate : Int
  source : Option JStr
  title : JStr
  subtitle : Option JStr
  translatedTitle : Option JStr
  externalIds : List ExternalId
  publicationYear : JsNum
  publicationMonth : JsNum
  publicationDay : JsNum
  journalTitle : Option JStr
  url : Option JStr
  shortDescription : Option JStr
  citation : Option Citation
  type : JStr
  contributors : List Contributor
  languageCode : Option JStr
  country : Option JStr
deriving DecidableEq

/-- `ORCID._parseWork` of legacy `src/index.ts`. Its `type` field is
`Object.values(WORK_TYPES).includes(data.type) ? data.type :
WORK_TYPES.UNSUPPORTED`; `includes` of an absent `type` is `false`, so
absence also maps to the sentinel. -/
def legacyParseWork (data : RawWork) : LegacyWork :=
  { putCode := jsNumberOf data.putCode
  , createdDate := parseEpochDate (vboxValue data.createdDate)
  , lastModifiedDate := parseEpochDate (vboxValue data.lastModifiedDate)
  , source := sboxValue (data.source.bind (·.sourceName))
  , title := legacyExtractTitle data.title
  , subtitle := sboxValue (data.title.bind (·.subtitle))
  , translatedTitle := sboxValue (data.title.bind (·.translatedTitle))
  , externalIds := parseExternalIds data.externalIds
  , publicationYear := jsNumberOf (vboxValue (data.publicationDate.bind (·.year)))
  , publicationMonth := jsNumberOf (vboxValue (data.publicationDate.bind (·.month)))
  , publicationDay := jsNumberOf (vboxValue (data.publicationDate.bind (·.day)))
  , journalTitle := sboxValue data.journalTitle
  , url := sboxValue data.url
  , shortDescription := data.shortDescription
  , citation := parseCitation data.citation
  , type :=
      match data.type with
      | some t => if t ∈ legacyWorkTypeValues then t else jstr "unsupported"
      | none => jstr "unsupported"
  , contributors := parseContributors data.contributors
  , languageCode := data.languageCode
  , country := sboxValue data.country }

/-- Outcome of the request phase of `Orcid.fetchWithCodes`: either the
guard `putCodes.length > 100` throws the bounds error before
`_fetchJson` runs, or exactly one bulk request is issued for the given
codes. -/
inductive BulkFetch where
  | boundsError : BulkFetch
  | request (putCodes : List JsNum) : BulkFetch
deriving DecidableEq

/-- The request phase of `Orcid.fetchWithCodes` (lines 157–164 of
`src/orcid-parser.ts`). -/
def fetchWithCodesRequest (putCodes : List JsNum) : BulkFetch :=
  if putCodes.length > 100 then .boundsError else .request putCodes

/-- Number of transport calls each request-phase outcome performs. -/
def transportCalls : BulkFetch → Nat
  | .boundsError => 0
  | .request _ => 1

/-- The mutable state of an `Orcid` instance: its `works` cache. -/
structure OrcidState where
  works : List Work
deriving DecidableEq

/-- The state set by the constructor: `this.works = []`. -/
def orcidInitialState : OrcidState := ⟨[]⟩

/-- `Orcid.getWorks()` as a state transformer. `fetched` is the
collection that `fetchWorks()` (no codes) would deliver on this call;
the returned Bool records whether `fetchWorks` was invoked. The code
fetches exactly when `this.works.length < 1`. -/
def getWorksStep (st : OrcidState) (fetched : List Work) :
    List Work × OrcidState × Bool :=
  if st.works.length < 1 then (fetched, ⟨fetched⟩, true) else (st.works, st, false)

/-- One `obj[key] = (obj[key] || 0) + 1` step on a JavaScript object
modelled as an insertion-ordered association list: an existing key is
bumped in place, a new key is appended. -/
def recBump {κ : Type} [DecidableEq κ] : List (κ × Nat) → κ → List (κ × Nat)
  | [], k => [(k, 1)]
  | (k2, c) :: rest, k =>
    if k2 = k then (k2, c + 1) :: rest else (k2, c) :: recBump rest k

/-- `Math.min` on the numbers reaching `yearRange` (`NaN` propagates). -/
def jsMathMin : JsNum → JsNum → JsNum
  | .num a, .num b => .num (min a b)
  | _, _ => .nan

/-- `Math.max` on the numbers reaching `yearRange` (`NaN` propagates). -/
def jsMathMax : JsNum → JsNum → JsNum
  | .num a, .num b => .num (max a b)
  | _, _ => .nan

/-- `OrcidStats` of `src/orcid-parser.ts`; the two `Record` fields are
insertion-ordered association lists, `yearRange` is the `min`/`max`
pair. -/
structure OrcidStats where
  total : Nat
  byType : List (JStr × Nat)
  byYear : List (JsNum × Nat)
  yearMin : Option JsNum
  yearMax : Option JsNum
deriving DecidableEq

/-- One iteration of the `getStats` loop: bump `byType` under
`work.type ?? 'unknown'`; when `typeof year === 'number'` (the field is
present, `NaN` included) bump `byYear` and update the year range. -/
def statsStep (st : OrcidStats) (w : Work) : OrcidStats :=
  let st2 := { st with byType := recBump st.byType (w.type.getD (jstr "unknown")) }
  match w.publicationYear with
  | some y =>
    { st2 with
      byYear := recBump st2.byYear y
      yearMin := some (match st2.yearMin with | some m => jsMathMin m y | none => y)
      yearMax := some (match st2.yearMax with | some m => jsMathMax m y | none => y) }
  | none => st2

/-- `getStats` of `src/orcid-parser.ts`: `total` is the input length,
the remaining fields are accumulated in one pass. -/
def getStats (works : List Work) : OrcidStats :=
  works.foldl statsStep
    { total := works.length, byType := [], byYear := [], yearMin := none,
      yearMax := none }

/-- Sum of the counts of an association-list record. -/
def sumCounts {κ : Type} (m : List (κ × Nat)) : Nat := (m.map (·.2)).sum

/-- Days from 1970-01-01 of a proleptic Gregorian civil date with
month already normalised to 1..12 (Howard Hinnant's days-from-civil). -/
def daysFromCivil (y m d : Int) : Int :=
  let yAdj := if m ≤ 2 then y - 1 else y
  let era := yAdj.fdiv 400
  let yoe := yAdj - era * 400
  let mp := (m + 9).emod 12
  let doy := (153 * mp + 2) / 5 + d - 1
  let doe := yoe * 365 + yoe / 4 - yoe / 100 + doy
  era * 146097 + doe - 719468

/-- The calendar day index of `new Date(year, monthIndex, day)`:
a two-digit year maps to 1900–1999, out-of-range month indices roll
over into adjacent years, out-of-range days roll over into adjacent
months. `getTime()` is strictly monotone in this index and constant on
equal indices (the local-time offset never reorders distinct days), so
comparator signs agree with the source. -/
def jsDateDays (year monthIndex day : Int) : Int :=
  let yAdj := if 0 ≤ year ∧ year ≤ 99 then year + 1900 else year
  let months := 12 * yAdj + monthIndex
  daysFromCivil (months.fdiv 12) (months.emod 12 + 1) 1 + (day - 1)

/-- `_getPublicationTime`:
`new Date(year ?? 0, (month ?? 1) - 1, day ?? 1).getTime()`, `NaN` when
any present component is `NaN` (an invalid date's time is `NaN`). -/
def pubTime (w : Work) : JsNum :=
  match w.publicationYear.getD (.num 0), w.publicationMonth.getD (.num 1),
      w.publicationDay.getD (.num 1) with
  | .num y, .num m, .num d => .num (jsDateDays y (m - 1) d)
  | _, _, _ => .nan

/-- Sort order argument of `sortByDate`. -/
inductive SortOrder where
  | asc : SortOrder
  | desc : SortOrder
deriving DecidableEq

/-- Difference of two JavaScript numbers (`NaN` absorbs). -/
def jsSubJN : JsNum → JsNum → JsNum
  | .num a, .num b => .num (a - b)
  | _, _ => .nan

/-- The comparator of `sortByDate`:
`order === 'desc' ? timeB - timeA : timeA - timeB`. -/
def sortCompare (order : SortOrder) (a b : Work) : JsNum :=
  match order with
  | .desc => jsSubJN (pubTime b) (pubTime a)
  | .asc => jsSubJN (pubTime a) (pubTime b)

/-- Whether a comparator result keeps `a` before `b`: the ES
`SortCompare` treats a `NaN` comparator value as `+0`, so `a` stays
before `b` exactly when the result is not positive. -/
def cmpKeepsB : JsNum → Bool
  | .nan => true
  | .num n => n ≤ 0

/-- The keep-before relation induced by the `sortByDate` comparator. -/
def keepsOrder (order : SortOrder) (a b : Work) : Prop :=
  cmpKeepsB (sortCompare order a b) = true

instance (order : SortOrder) : DecidableRel (keepsOrder order) :=
  fun a b => instDecidableEqBool (cmpKeepsB (sortCompare order a b)) true

/-- `sortByDate` of `src/orcid-parser.ts`: `[...works].sort(cmp)`.
ES2019 `Array.prototype.sort` must return a stable permutation sorted
by the comparator; insertion sort with the keep-before relation is such
an implementation, and for a consistent comparator the stable sorted
result is unique. -/
def sortByDate (works : List Work) (order : SortOrder) : List Work :=
  List.insertionSort (keepsOrder order) works

/-- A work with the given put-code, publication date fields and type;
all other fields empty. Used for concrete witnesses. -/
def mkDatedWork (pc : Int) (y m d : Option JsNum) (ty : Option JStr) : Work :=
  { putCode := .num pc, createdDate := 0, lastModifiedDate := 0, source := none,
    title := none, subtitle := none, translatedTitle := none, externalIds := [],
    publicationYear := y, publicationMonth := m, publicationDay := d,
    journalTitle := none, url := none, shortDescription := none, citation := none,
    type := ty, contributors := [], languageCode := none, country := none }

/-- A raw work object with every field absent. Concrete counterexample
inputs are built by overriding its fields. -/
def emptyRawWork : RawWork :=
  { putCode := none, createdDate := none, lastModifiedDate := none,
    source := none, title := none, externalIds := none,
    publicationDate := none, journalTitle := none, url := none,
    shortDescription := none, citation := none, type := none,
    contributors := none, languageCode := none, country := none }

/-- A raw work whose `type` is a string outside every vocabulary. -/
def rawBogusType : RawWork := { emptyRawWork with type := some (jstr "quantum-blog") }

/-- A raw work whose publication date carries a present empty-string
`year.value`, a present JSON-`null` `month.value`, and no `day`. -/
def rawEdgePubDate : RawWork :=
  { emptyRawWork with
      publicationDate :=
        some { year := some { value := some (.str (jstr "")) }
             , month := some { value := some .null }
             , day := none } }

/-- An identifier string carrying the registry URL prefix twice. -/
def doublePrefixId : JStr :=
  ORCID_URL_HTTPS ++ (ORCID_URL_HTTPS ++ jstr "0000-0002-1825-0097")

/-- Two distinct works sharing one publication date (a comparator tie). -/
def wTieA : Work := mkDatedWork 1 (some (.num 2020)) none none none

/-- Second element of the comparator tie. -/
def wTieB : Work := mkDatedWork 2 (some (.num 2020)) none none none

/-- A work dated 2019, for distinct-date witnesses. -/
def wd2019 : Work := mkDatedWork 3 (some (.num 2019)) none none none

/-- A work dated 2021, for distinct-date witnesses. -/
def wd2021 : Work := mkDatedWork 4 (some (.num 2021)) none none none

/-- Strict publication-time order on works (defined numeric times only;
`NaN` times are never strictly ordered). -/
def pubTimeLt (a b : Work) : Prop :=
  match pubTime a, pubTime b with
  | .num i, .num j => i < j
  | _, _ => False

/-! ## Helper lemmas -/

theorem jsNumberOf_absent : jsNumberOf none = JsNum.nan := rfl

theorem jsNumberOf_str_nan (s : JStr) (h1 : jsTrim s ≠ [])
    (h2 : intLiteralToInt (jsTrim s) = none) :
    jsNumberOf (some (.str s)) = JsNum.nan := by
  simp [jsNumberOf, jsStringToNumber, h1, h2]

theorem jsNumberOf_null : jsNumberOf (some .null) = JsNum.num 0 := rfl

theorem jsNumberOf_str_blank (s : JStr) (h : jsTrim s = []) :
    jsNumberOf (some (.str s)) = JsNum.num 0 := by
  simp [jsNumberOf, jsStringToNumber, h]

/-! ## C2: the two-stage lenient work-type parse -/

/-- C2 (counterexample). The claim says the fallback stage compares the
*trimmed* input against the vocabulary values and returns the trimmed
input on a hit. On the input `" journal-article "` the trimmed form is
the vocabulary value `journal-article` and the name-stage lookup fails,
so the claim predicts the result `journal-article`; the code compares
the untrimmed input instead and returns `unsupported`. -/
theorem C2_counterexample_untrimmed_fallback :
    jsTrim (jstr " journal-article ") ∈ workTypeValues ∧
    workTypesLookup (fromStringKey (jstr " journal-article ")) = none ∧
    WorkType.fromString (jstr " journal-article ") = jstr "unsupported" ∧
    WorkType.fromString (jstr " journal-article ") ≠ jsTrim (jstr " journal-article ") := by
  decide

/-- C2 (amended): `WorkType.fromString` uppercase-and-underscore
normalizes the trimmed input and looks it up as a vocabulary name; if
that fails it returns the *original, untrimmed* input exactly when that
input itself is a vocabulary value; otherwise `unsupported`. -/
theorem C2_fromString_two_stage (s : JStr) :
    (∀ v, workTypesLookup (jsWsRunsToUnderscore (jsToUpper (jsTrim s))) = some v →
      WorkType.fromString s = v) ∧
    (workTypesLookup (jsWsRunsToUnderscore (jsToUpper (jsTrim s))) = none →
      s ∈ workTypeValues → WorkType.fromString s = s) ∧
    (workTypesLookup (jsWsRunsToUnderscore (jsToUpper (jsTrim s))) = none →
      s ∉ workTypeValues → WorkType.fromString s = jstr "unsupported") := by
  refine ⟨?_, ?_, ?_⟩
  · intro v hv
    simp only [WorkType.fromString, fromStringKey, hv]
  · intro h hmem
    simp only [WorkType.fromString, fromStringKey, h, if_pos hmem]
  · intro h hmem
    simp only [WorkType.fromString, fromStringKey, h, if_neg hmem]

/-- C2 (witness): the amended theorem applied to the constant name
`ARTICLE`, whose name-stage lookup succeeds. -/
theorem C2_witness :
    workTypesLookup (jsWsRunsToUnderscore (jsToUpper (jsTrim (jstr "ARTICLE")))) =
      some (jstr "journal-article") ∧
    WorkType.fromString (jstr "ARTICLE") = jstr "journal-article" :=
  ⟨by decide, (C2_fromString_two_stage (jstr "ARTICLE")).1 _ (by decide)⟩

/-! ## C9: vocabulary values are fixed points of the lenient parse -/

/-- C9: every vocabulary value string (current vocabulary of
`src/constants.ts`, legacy aliases and both sentinels included) parses
to itself under `WorkType.fromString`: single-word values hit their own
constant name in the first stage, hyphenated values fall through to the
value stage and are returned unchanged. -/
theorem C9_fromString_fixes_values :
    ∀ v ∈ workTypeValues, WorkType.fromString v = v := by decide

/-- C9 (witness): applied to the value `data-set`, whose uppercase form
`DATA-SET` is not a constant name, exercising the fallback stage. -/
theorem C9_witness : WorkType.fromString (jstr "data-set") = jstr "data-set" :=
  C9_fromString_fixes_values (jstr "data-set") (by decide)

/-! ## C5: the bulk-fetch bounds guard -/

/-- C5: `fetchWithCodes` raises the bounds error exactly on code lists
longer than 100, and does so before any transport call is issued; lists
of at most 100 codes never produce the bounds error. -/
theorem C5_fetchWithCodes_bounds (codes : List JsNum) :
    (codes.length > 100 →
      fetchWithCodesRequest codes = .boundsError ∧
      transportCalls (fetchWithCodesRequest codes) = 0) ∧
    (codes.length ≤ 100 → fetchWithCodesRequest codes ≠ .boundsError) := by
  constructor
  · intro h
    simp [fetchWithCodesRequest, h, transportCalls]
  · intro h
    simp [fetchWithCodesRequest, Nat.not_lt.mpr h]

/-- C5 (witness): 101 codes trip the guard with no transport call; a
one-code list does not. -/
theorem C5_witness :
    (List.replicate 101 (JsNum.num 0)).length > 100 ∧
    fetchWithCodesRequest (List.replicate 101 (JsNum.num 0)) = .boundsError ∧
    transportCalls (fetchWithCodesRequest (List.replicate 101 (JsNum.num 0))) = 0 ∧
    fetchWithCodesRequest [JsNum.num 7] ≠ .boundsError := by
  refine ⟨by decide, ?_, ?_, ?_⟩
  · exact ((C5_fetchWithCodes_bounds (List.replicate 101 (JsNum.num 0))).1 (by decide)).1
  · exact ((C5_fetchWithCodes_bounds (List.replicate 101 (JsNum.num 0))).1 (by decide)).2
  · exact (C5_fetchWithCodes_bounds [JsNum.num 7]).2 (by decide)

/-! ## C4: the getWorks cache -/

/-- C4 (counterexample). The claim says that after *any* completed
`getWorks()` call a subsequent `getWorks()` returns the cache without
fetching. Starting from the constructor state, let the fetch deliver the
empty collection: the first call completes, yet the second call fetches
again, because the code tests `this.works.length < 1`, so an empty fetch
result never populates the cache. -/
theorem C4_counterexample_empty_fetch_refetches :
    getWorksStep orcidInitialState [] = ([], ⟨[]⟩, true) ∧
    (getWorksStep (getWorksStep orcidInitialState []).2.1 []).2.2 = true := by
  decide

/-- C4 (amended): `getWorks` returns the cache without fetching exactly
when the cache is non-empty; otherwise it fetches, stores and returns
the fetched collection. Consequently a completed `getWorks()` call
suppresses fetching on the next call only when it returned a non-empty
collection; an empty fetch result leaves the cache unpopulated. -/
theorem C4_getWorks_cache (st : OrcidState) (f g : List Work) :
    (st.works ≠ [] → getWorksStep st f = (st.works, st, false)) ∧
    (st.works = [] → getWorksStep st f = (f, ⟨f⟩, true)) ∧
    (st.works = [] → f ≠ [] →
      getWorksStep (getWorksStep st f).2.1 g = (f, ⟨f⟩, false)) := by
  refine ⟨?_, ?_, ?_⟩
  · intro h
    have : ¬ st.works.length < 1 := by
      simp [Nat.lt_one_iff, List.length_eq_zero, h]
    simp [getWorksStep, this]
  · intro h
    simp [getWorksStep, h]
  · intro h hf
    have h1 : getWorksStep st f = (f, ⟨f⟩, true) := by simp [getWorksStep, h]
    have h2 : ¬ (f.length < 1) := by simp [Nat.lt_one_iff, List.length_eq_zero, hf]
    rw [h1]
    simp [getWorksStep, h2]

/-- C4 (witness): the amended theorem at the constructor state with a
one-element fetch result: the first call fetches and populates, the
second call serves the cache without fetching. -/
theorem C4_witness :
    getWorksStep orcidInitialState [wTieA] = ([wTieA], ⟨[wTieA]⟩, true) ∧
    getWorksStep (getWorksStep orcidInitialState [wTieA]).2.1 [] =
      ([wTieA], ⟨[wTieA]⟩, false) :=
  ⟨(C4_getWorks_cache orcidInitialState [wTieA] []).2.1 rfl,
   (C4_getWorks_cache orcidInitialState [wTieA] []).2.2 rfl (by decide)⟩

/-! ## C10: structurally absent titles stay absent -/

/-- C10: when the nested `title.title.value` path of a raw object is
structurally absent, `_parseWorkSummary` leaves the `title` field
absent, `_parseWork` (which spreads the summary) does too, and no
placeholder such as `'Untitled'` is substituted; the parse is a total
function, so it never throws. -/
theorem C10_missing_title_left_absent (data : RawWork)
    (h : sboxValue (data.title.bind (·.title)) = none) :
    (parseWorkSummary data).title = none ∧
    (parseWork data).title = none ∧
    (parseWork data).title ≠ some (jstr "Untitled") := by
  refine ⟨?_, ?_, ?_⟩ <;> simp [parseWorkSummary, parseWork, h]

/-- C10 (witness): the raw object with every field absent. -/
theorem C10_witness :
    sboxValue (emptyRawWork.title.bind (·.title)) = none ∧
    (parseWorkSummary emptyRawWork).title = none ∧
    (parseWork emptyRawWork).title = none :=
  ⟨by decide, (C10_missing_title_left_absent emptyRawWork (by decide)).1,
   (C10_missing_title_left_absent emptyRawWork (by decide)).2.1⟩

/-! ## C3: numeric publication-date coercion -/

/-- C3 (counterexample). The claim says absent or unparseable source
values for `publicationYear`/`Month`/`Day` collapse to the `NaN`
sentinel and never to zero. A present empty-string `year.value` — not a
number in any ordinary sense (`parseInt` would give `NaN`) — coerces to
`0` under `Number`, as does a present JSON-`null` `month.value`; only
the structurally absent `day` yields `NaN`. -/
theorem C3_counterexample_zero_coercions :
    (parseWorkSummary rawEdgePubDate).publicationYear = some (JsNum.num 0) ∧
    (parseWorkSummary rawEdgePubDate).publicationMonth = some (JsNum.num 0) ∧
    (parseWorkSummary rawEdgePubDate).publicationDay = some JsNum.nan ∧
    JsNum.num 0 ≠ JsNum.nan := by
  decide

/-- C3 (amended): a structurally absent source value (broken optional
chain) and a present, nonblank, non-numeric string both collapse to the
`NaN` sentinel for each of the three publication-date fields — the
parse is a total function, so it never throws — while the two edge
shapes a present JSON `null` and a blank string coerce to `0`. -/
theorem C3_pub_date_coercion (data : RawWork) :
    (vboxValue (data.publicationDate.bind (·.year)) = none →
      (parseWorkSummary data).publicationYear = some JsNum.nan) ∧
    (vboxValue (data.publicationDate.bind (·.month)) = none →
      (parseWorkSummary data).publicationMonth = some JsNum.nan) ∧
    (vboxValue (data.publicationDate.bind (·.day)) = none →
      (parseWorkSummary data).publicationDay = some JsNum.nan) ∧
    (∀ s, vboxValue (data.publicationDate.bind (·.year)) = some (.str s) →
      jsTrim s ≠ [] → intLiteralToInt (jsTrim s) = none →
      (parseWorkSummary data).publicationYear = some JsNum.nan) ∧
    (∀ s, vboxValue (data.publicationDate.bind (·.month)) = some (.str s) →
      jsTrim s ≠ [] → intLiteralToInt (jsTrim s) = none →
      (parseWorkSummary data).publicationMonth = some JsNum.nan) ∧
    (∀ s, vboxValue (data.publicationDate.bind (·.day)) = some (.str s) →
      jsTrim s ≠ [] → intLiteralToInt (jsTrim s) = none →
      (parseWorkSummary data).publicationDay = some JsNum.nan) ∧
    (vboxValue (data.publicationDate.bind (·.year)) = some .null →
      (parseWorkSummary data).publicationYear = some (JsNum.num 0)) ∧
    (∀ s, vboxValue (data.publicationDate.bind (·.year)) = some (.str s) →
      jsTrim s = [] →
      (parseWorkSummary data).publicationYear = some (JsNum.num 0)) := by
  refine ⟨?_, ?_, ?_, ?_, ?_, ?_, ?_, ?_⟩
  · intro h
    simp [parseWorkSummary, h, jsNumberOf_absent]
  · intro h
    simp [parseWorkSummary, h, jsNumberOf_absent]
  · intro h
    simp [parseWorkSummary, h, jsNumberOf_absent]
  · intro s h h1 h2
    simp [parseWorkSummary, h, jsNumberOf_str_nan s h1 h2]
  · intro s h h1 h2
    simp [parseWorkSummary, h, jsNumberOf_str_nan s h1 h2]
  · intro s h h1 h2
    simp [parseWorkSummary, h, jsNumberOf_str_nan s h1 h2]
  · intro h
    simp [parseWorkSummary, h, jsNumberOf_null]
  · intro s h h1
    simp [parseWorkSummary, h, jsNumberOf_str_blank s h1]

/-- C3 (witness): the all-absent raw object gives `NaN` for all three
fields, and a garbage year string gives `NaN` too. -/
theorem C3_witness :
    (parseWorkSummary emptyRawWork).publicationYear = some JsNum.nan ∧
    (parseWorkSummary emptyRawWork).publicationMonth = some JsNum.nan ∧
    (parseWorkSummary emptyRawWork).publicationDay = some JsNum.nan ∧
    (parseWorkSummary
      { emptyRawWork with
          publicationDate :=
            some { year := some { value := some (.str (jstr "TBD")) },
                   month := none, day := none } }).publicationYear = some JsNum.nan :=
  ⟨(C3_pub_date_coercion emptyRawWork).1 (by decide),
   (C3_pub_date_coercion emptyRawWork).2.1 (by decide),
   (C3_pub_date_coercion emptyRawWork).2.2.1 (by decide),
   (C3_pub_date_coercion _).2.2.2.1 (jstr "TBD") (by decide) (by decide) (by decide)⟩

/-! ## C1: the work-type vocabulary invariant -/

/-- C1 (counterexample). The claim asserts that the `type` field of a
`Work` produced by the parser used by `Orcid.fetchWithCodes`/`fetchWorks`
(`_parseWork` of `src/orcid-parser.ts`) always lies in the closed
`WORK_TYPES` vocabulary, with out-of-vocabulary raw strings mapped to
`UNSUPPORTED`. That parser stores `data.type` verbatim: a raw work whose
`type` is the unrecognized string `quantum-blog` parses to a `Work`
whose `type` is that very string, outside the vocabulary. -/
theorem C1_counterexample_verbatim_type :
    (parseWork rawBogusType).type = some (jstr "quantum-blog") ∧
    jstr "quantum-blog" ∉ workTypeValues ∧
    (parseWork rawBogusType).type ≠ some (jstr "unsupported") := by
  decide

/-- C1 (amended): the vocabulary membership check lives only in the
legacy `ORCID._parseWork` of `src/index.ts`, whose `type` output is
always a member of that module's closed vocabulary, with any absent or
unrecognized raw `type` mapped to `unsupported`; the current
`Orcid._parseWork` of `src/orcid-parser.ts` instead propagates the raw
`type` field verbatim. -/
theorem C1_type_vocabulary (data : RawWork) :
    (legacyParseWork data).type ∈ legacyWorkTypeValues ∧
    (∀ t, data.type = some t → t ∉ legacyWorkTypeValues →
      (legacyParseWork data).type = jstr "unsupported") ∧
    (data.type = none → (legacyParseWork data).type = jstr "unsupported") ∧
    (parseWork data).type = data.type := by
  have hu : jstr "unsupported" ∈ legacyWorkTypeValues := by decide
  refine ⟨?_, ?_, ?_, rfl⟩
  · cases h : data.type with
    | none => simp [legacyParseWork, h, hu]
    | some t =>
      by_cases hmem : t ∈ legacyWorkTypeValues
      · simp [legacyParseWork, h, hmem]
      · simp [legacyParseWork, h, hmem, hu]
  · intro t ht hmem
    simp [legacyParseWork, ht, hmem]
  · intro h
    simp [legacyParseWork, h]

/-- C1 (witness): the amended theorem at the bogus-typed raw work: the
legacy parser maps it to `unsupported`, the current parser propagates
it. -/
theorem C1_witness :
    (legacyParseWork rawBogusType).type = jstr "unsupported" ∧
    (parseWork rawBogusType).type = some (jstr "quantum-blog") :=
  ⟨(C1_type_vocabulary rawBogusType).2.1 (jstr "quantum-blog") rfl (by decide),
   (C1_type_vocabulary rawBogusType).2.2.2⟩

/-! ## C8: identifier normalization -/

theorem https_isPrefixOf_append (s : JStr) :
    ORCID_URL_HTTPS.isPrefixOf (ORCID_URL_HTTPS ++ s) = true := by
  rw [List.isPrefixOf_iff_prefix]
  exact List.prefix_append _ _

theorem http_isPrefixOf_append (s : JStr) :
    ORCID_URL_HTTP.isPrefixOf (ORCID_URL_HTTP ++ s) = true := by
  rw [List.isPrefixOf_iff_prefix]
  exact List.prefix_append _ _

theorem https_not_prefix_of_http_append (s : JStr) :
    ORCID_URL_HTTPS.isPrefixOf (ORCID_URL_HTTP ++ s) = false := by
  rw [Bool.eq_false_iff]
  intro hpre
  rw [List.isPrefixOf_iff_prefix] at hpre
  obtain ⟨t, ht⟩ := hpre
  have h5 := congrArg (List.take 5) ht
  rw [List.take_append_of_le_length (by decide),
    List.take_append_of_le_length (by decide)] at h5
  exact absurd h5 (by decide)

theorem http_not_prefix_of_https_append (s : JStr) :
    ORCID_URL_HTTP.isPrefixOf (ORCID_URL_HTTPS ++ s) = false := by
  rw [Bool.eq_false_iff]
  intro hpre
  rw [List.isPrefixOf_iff_prefix] at hpre
  obtain ⟨t, ht⟩ := hpre
  have h5 := congrArg (List.take 5) ht
  rw [List.take_append_of_le_length (by decide),
    List.take_append_of_le_length (by decide)] at h5
  exact absurd h5 (by decide)

/-- C8 (counterexample). The claim quantifies over every non-empty
identifier input with or without the URL prefix. On an input carrying
the prefix twice the anchored, non-global `replace` strips only the
first occurrence: the output still starts with the registry URL prefix
(not prefix-free) and a second application strips again (not a fixed
point). -/
theorem C8_counterexample_double_prefix :
    doublePrefixId ≠ [] ∧
    ORCID_URL_HTTPS.isPrefixOf (sanitizeOrcidId doublePrefixId) = true ∧
    sanitizeOrcidId (sanitizeOrcidId doublePrefixId) ≠ sanitizeOrcidId doublePrefixId := by
  decide

/-- C8 (amended): on inputs that are a bare identifier not starting
with either registry URL prefix form, or one such prefix followed by
such a bare identifier, the normalizer strips exactly the one leading
prefix; its output is prefix-free and a fixed point of re-application. -/
theorem C8_sanitize_prefix_free_idempotent (s : JStr)
    (h1 : ORCID_URL_HTTPS.isPrefixOf s = false)
    (h2 : ORCID_URL_HTTP.isPrefixOf s = false) :
    sanitizeOrcidId s = s ∧
    sanitizeOrcidId (ORCID_URL_HTTPS ++ s) = s ∧
    sanitizeOrcidId (ORCID_URL_HTTP ++ s) = s ∧
    sanitizeOrcidId (sanitizeOrcidId s) = sanitizeOrcidId s ∧
    sanitizeOrcidId (sanitizeOrcidId (ORCID_URL_HTTPS ++ s)) =
      sanitizeOrcidId (ORCID_URL_HTTPS ++ s) ∧
    sanitizeOrcidId (sanitizeOrcidId (ORCID_URL_HTTP ++ s)) =
      sanitizeOrcidId (ORCID_URL_HTTP ++ s) ∧
    ORCID_URL_HTTPS.isPrefixOf (sanitizeOrcidId (ORCID_URL_HTTPS ++ s)) = false ∧
    ORCID_URL_HTTP.isPrefixOf (sanitizeOrcidId (ORCID_URL_HTTP ++ s)) = false := by
  have e0 : sanitizeOrcidId s = s := by
    simp [sanitizeOrcidId, h1, h2]
  have e1 : sanitizeOrcidId (ORCID_URL_HTTPS ++ s) = s := by
    simp [sanitizeOrcidId, https_isPrefixOf_append, List.drop_left]
  have e2 : sanitizeOrcidId (ORCID_URL_HTTP ++ s) = s := by
    simp [sanitizeOrcidId, https_not_prefix_of_http_append, http_isPrefixOf_append,
      List.drop_left]
  refine ⟨e0, e1, e2, ?_, ?_, ?_, ?_, ?_⟩
  · rw [e0, e0]
  · rw [e1, e0]
  · rw [e2, e0]
  · rw [e1, h1]
  · rw [e2, h2]

/-- C8 (witness): the amended theorem at the bare identifier
`0000-0002-1825-0097`. -/
theorem C8_witness :
    sanitizeOrcidId (ORCID_URL_HTTPS ++ jstr "0000-0002-1825-0097") =
      jstr "0000-0002-1825-0097" ∧
    ORCID_URL_HTTPS.isPrefixOf
      (sanitizeOrcidId (ORCID_URL_HTTPS ++ jstr "0000-0002-1825-0097")) = false :=
  ⟨(C8_sanitize_prefix_free_idempotent (jstr "0000-0002-1825-0097")
      (by decide) (by decide)).2.1,
   (C8_sanitize_prefix_free_idempotent (jstr "0000-0002-1825-0097")
      (by decide) (by decide)).2.2.2.2.2.2.1⟩

/-! ## C6: getStats totals -/

theorem sumCounts_recBump {κ : Type} [DecidableEq κ] (m : List (κ × Nat)) (k : κ) :
    sumCounts (recBump m k) = sumCounts m + 1 := by
  induction m with
  | nil => rfl
  | cons p rest ih =>
    obtain ⟨k2, c⟩ := p
    by_cases h : k2 = k
    · simp [recBump, h, sumCounts]
      omega
    · simp [recBump, h, sumCounts] at *
      omega

theorem statsStep_total (st : OrcidStats) (w : Work) :
    (statsStep st w).total = st.total := by
  cases h : w.publicationYear <;> simp [statsStep, h]

theorem statsStep_byType (st : OrcidStats) (w : Work) :
    (statsStep st w).byType = recBump st.byType (w.type.getD (jstr "unknown")) := by
  cases h : w.publicationYear <;> simp [statsStep, h]

theorem statsStep_byYear (st : OrcidStats) (w : Work) :
    (statsStep st w).byYear =
      match w.publicationYear with
      | some y => recBump st.byYear y
      | none => st.byYear := by
  cases h : w.publicationYear <;> simp [statsStep, h]

theorem foldl_statsStep_total (ws : List Work) :
    ∀ st : OrcidStats, (ws.foldl statsStep st).total = st.total := by
  induction ws with
  | nil => intro st; rfl
  | cons w ws ih =>
    intro st
    rw [List.foldl_cons, ih, statsStep_total]

theorem foldl_statsStep_byType_sum (ws : List Work) :
    ∀ st : OrcidStats,
      sumCounts (ws.foldl statsStep st).byType = sumCounts st.byType + ws.length := by
  induction ws with
  | nil => intro st; simp
  | cons w ws ih =>
    intro st
    rw [List.foldl_cons, ih, statsStep_byType, sumCounts_recBump, List.length_cons]
    omega

theorem foldl_statsStep_byYear_sum (ws : List Work) :
    ∀ st : OrcidStats,
      sumCounts (ws.foldl statsStep st).byYear =
        sumCounts st.byYear + ws.countP (fun w => w.publicationYear.isSome) := by
  induction ws with
  | nil => intro st; simp
  | cons w ws ih =>
    intro st
    rw [List.foldl_cons, ih, statsStep_byYear, List.countP_cons]
    cases h : w.publicationYear with
    | none => simp [h]
    | some y => simp [h, sumCounts_recBump]; omega

/-- C6: `getStats` reports `total` equal to the input length; the
`byType` counts always sum to `total` (every work is counted once,
under `'unknown'` when its type is absent); the `byYear` counts sum to
the number of works whose `publicationYear` is a defined number (`NaN`
included, since `typeof NaN === 'number'`), which is at most `total`
with equality exactly when every work has a defined numeric year. -/
theorem C6_getStats_totals (works : List Work) :
    (getStats works).total = works.length ∧
    sumCounts (getStats works).byType = works.length ∧
    sumCounts (getStats works).byYear ≤ works.length ∧
    (sumCounts (getStats works).byYear = works.length ↔
      ∀ w ∈ works, w.publicationYear.isSome) := by
  have htot : (getStats works).total = works.length := by
    rw [getStats, foldl_statsStep_total]
  have hty : sumCounts (getStats works).byType = works.length := by
    rw [getStats, foldl_statsStep_byType_sum]
    simp [sumCounts]
  have hyr : sumCounts (getStats works).byYear =
      works.countP (fun w => w.publicationYear.isSome) := by
    rw [getStats, foldl_statsStep_byYear_sum]
    simp [sumCounts]
  refine ⟨htot, hty, ?_, ?_⟩
  · rw [hyr]
    exact List.countP_le_length _
  · rw [hyr]
    exact List.countP_eq_length

/-- C6 (witness): a three-work list with one missing year. -/
theorem C6_witness :
    (getStats [wTieA, wd2019, mkDatedWork 9 none none none none]).total = 3 ∧
    sumCounts (getStats [wTieA, wd2019, mkDatedWork 9 none none none none]).byType = 3 ∧
    sumCounts (getStats [wTieA, wd2019, mkDatedWork 9 none none none none]).byYear ≤ 3 :=
  ⟨(C6_getStats_totals [wTieA, wd2019, mkDatedWork 9 none none none none]).1,
   (C6_getStats_totals [wTieA, wd2019, mkDatedWork 9 none none none none]).2.1,
   (C6_getStats_totals [wTieA, wd2019, mkDatedWork 9 none none none none]).2.2.1⟩

/-! ## C7: sortByDate -/

theorem filter_orderedInsert {α : Type} (r : α → α → Prop) [DecidableRel r]
    (p : α → Bool) (x : α) (H : ∀ y, p x = true → p y = true → r x y) :
    ∀ m : List α, (List.orderedInsert r x m).filter p =
      if p x then x :: m.filter p else m.filter p := by
  intro m
  induction m with
  | nil =>
    cases hpx : p x <;> simp [List.orderedInsert, List.filter_cons, hpx]
  | cons y ys ih =>
    by_cases hr : r x y
    · rw [List.orderedInsert, if_pos hr]
      cases hpx : p x <;> simp [List.filter_cons, hpx]
    · rw [List.orderedInsert, if_neg hr]
      rw [List.filter_cons]
      cases hpx : p x with
      | true =>
        have hpy : p y = false := by
          cases hpy2 : p y
          · rfl
          · exact absurd (H y hpx hpy2) hr
        simp [hpy, ih, hpx, List.filter_cons]
      | false =>
        cases hpy : p y <;> simp [hpy, ih, hpx, List.filter_cons]

theorem filter_insertionSort {α : Type} (r : α → α → Prop) [DecidableRel r]
    (p : α → Bool) (H : ∀ x y, p x = true → p y = true → r x y) :
    ∀ l : List α, (List.insertionSort r l).filter p = l.filter p := by
  intro l
  induction l with
  | nil => rfl
  | cons x xs ih =>
    rw [List.insertionSort, filter_orderedInsert r p x (fun y => H x y), ih,
      List.filter_cons]

theorem sorted_orderedInsert_of {α : Type} (r : α → α → Prop) [DecidableRel r]
    (q : α → Prop)
    (Htot : ∀ x y, q x → q y → r x y ∨ r y x)
    (Htrans : ∀ x y z, q x → q y → q z → r x y → r y z → r x z)
    (x : α) (hx : q x) :
    ∀ m : List α, (∀ y ∈ m, q y) → List.Sorted r m →
      List.Sorted r (List.orderedInsert r x m) := by
  intro m
  induction m with
  | nil =>
    intro _ _
    simp [List.orderedInsert]
  | cons y ys ih =>
    intro hm hs
    rw [List.sorted_cons] at hs
    by_cases hr : r x y
    · rw [List.orderedInsert, if_pos hr, List.sorted_cons]
      refine ⟨?_, ?_⟩
      · intro b hb
        rcases List.mem_cons.mp hb with rfl | hb2
        · exact hr
        · exact Htrans x y b hx (hm y (List.mem_cons_self y ys))
            (hm b (List.mem_cons_of_mem y hb2)) hr (hs.1 b hb2)
      · rw [List.sorted_cons]
        exact hs
    · rw [List.orderedInsert, if_neg hr, List.sorted_cons]
      refine ⟨?_, ?_⟩
      · intro b hb
        rcases (List.mem_orderedInsert r).mp hb with rfl | hb2
        · rcases Htot b y hx (hm y (List.mem_cons_self y ys)) with h | h
          · exact absurd h hr
          · exact h
        · exact hs.1 b hb2
      · exact ih (fun z hz => hm z (List.mem_cons_of_mem y hz)) hs.2

theorem sorted_insertionSort_of {α : Type} (r : α → α → Prop) [DecidableRel r]
    (q : α → Prop)
    (Htot : ∀ x y, q x → q y → r x y ∨ r y x)
    (Htrans : ∀ x y z, q x → q y → q z → r x y → r y z → r x z) :
    ∀ l : List α, (∀ y ∈ l, q y) → List.Sorted r (List.insertionSort r l) := by
  intro l
  induction l with
  | nil =>
    intro _
    simp
  | cons x xs ih =>
    intro hl
    rw [List.insertionSort]
    refine sorted_orderedInsert_of r q Htot Htrans x (hl x (List.mem_cons_self x xs))
      (List.insertionSort r xs) ?_ ?_
    · intro y hy
      exact hl y (List.mem_cons_of_mem x ((List.mem_insertionSort r).mp hy))
    · exact ih (fun y hy => hl y (List.mem_cons_of_mem x hy))

theorem keepsOrder_of_eq_time (order : SortOrder) (a b : Work)
    (h : pubTime a = pubTime b) : keepsOrder order a b := by
  cases order <;> cases hb : pubTime b <;>
    simp [keepsOrder, sortCompare, jsSubJN, cmpKeepsB, h, hb]

theorem keepsOrder_total (order : SortOrder) (x y : Work)
    (hx : pubTime x ≠ JsNum.nan) (hy : pubTime y ≠ JsNum.nan) :
    keepsOrder order x y ∨ keepsOrder order y x := by
  cases hxv : pubTime x with
  | nan => exact absurd hxv hx
  | num i =>
    cases hyv : pubTime y with
    | nan => exact absurd hyv hy
    | num j =>
      cases order <;>
        simp [keepsOrder, sortCompare, jsSubJN, cmpKeepsB, hxv, hyv] <;> omega

theorem keepsOrder_trans (order : SortOrder) (x y z : Work)
    (hx : pubTime x ≠ JsNum.nan) (hy : pubTime y ≠ JsNum.nan)
    (hz : pubTime z ≠ JsNum.nan)
    (h1 : keepsOrder order x y) (h2 : keepsOrder order y z) :
    keepsOrder order x z := by
  cases hxv : pubTime x with
  | nan => exact absurd hxv hx
  | num i =>
    cases hyv : pubTime y with
    | nan => exact absurd hyv hy
    | num j =>
      cases hzv : pubTime z with
      | nan => exact absurd hzv hz
      | num k =>
        cases order <;>
          simp [keepsOrder, sortCompare, jsSubJN, cmpKeepsB, hxv, hyv, hzv]
            at h1 h2 ⊢ <;>
          omega

theorem pubTimeLt_of_asc_of_ne (a b : Work)
    (ha : pubTime a ≠ JsNum.nan) (hb : pubTime b ≠ JsNum.nan)
    (h : keepsOrder .asc a b) (hne : pubTime a ≠ pubTime b) : pubTimeLt a b := by
  cases hav : pubTime a with
  | nan => exact absurd hav ha
  | num i =>
    cases hbv : pubTime b with
    | nan => exact absurd hbv hb
    | num j =>
      simp [keepsOrder, sortCompare, jsSubJN, cmpKeepsB, hav, hbv] at h
      rw [hav, hbv] at hne
      simp at hne
      simp [pubTimeLt, hav, hbv]
      omega

/-- C7 (counterexample). The claim says the reversed output of one
order always equals the output of the opposite order. ES2019 requires
the sort to be stable, so two distinct works sharing one publication
date keep their input order under *both* orders, and reversing one
output cannot equal the other. -/
theorem C7_counterexample_tie_breaks_reversal :
    pubTime wTieA = pubTime wTieB ∧ wTieA ≠ wTieB ∧
    sortByDate [wTieA, wTieB] .desc = [wTieA, wTieB] ∧
    sortByDate [wTieA, wTieB] .asc = [wTieA, wTieB] ∧
    (sortByDate [wTieA, wTieB] .desc).reverse ≠ sortByDate [wTieA, wTieB] .asc := by
  decide

/-- C7 (amended): `sortByDate` is a stable sort by the composite
publication date — the works sharing any fixed date keep their relative
input order — and on inputs whose publication times are defined (no
`NaN`) and pairwise distinct, the reversed descending output equals the
ascending output; works with all three date fields absent all receive
the fixed sentinel time `new Date(0, 0, 1)`, i.e. 1900-01-01 (so they
sort together, but ties break the reversal property and pre-1900 works
sort below them). -/
theorem C7_sortByDate_stable (works : List Work) :
    (∀ (order : SortOrder) (t : JsNum),
      (sortByDate works order).filter (fun w => pubTime w == t) =
        works.filter (fun w => pubTime w == t)) ∧
    ((∀ w ∈ works, pubTime w ≠ JsNum.nan) → (works.map pubTime).Nodup →
      (sortByDate works .desc).reverse = sortByDate works .asc) ∧
    (∀ w : Work, w.publicationYear = none → w.publicationMonth = none →
      w.publicationDay = none → pubTime w = JsNum.num (daysFromCivil 1900 1 1)) := by
  refine ⟨?_, ?_, ?_⟩
  · intro order t
    refine filter_insertionSort (keepsOrder order) (fun w => pubTime w == t) ?_ works
    intro x y hx hy
    exact keepsOrder_of_eq_time order x y (by
      rw [beq_iff_eq] at hx hy
      rw [hx, hy])
  · intro hnum hdist
    have hSymm : Symmetric (fun a b : Work => pubTime a ≠ pubTime b) :=
      fun a b h hEq => h hEq.symm
    have hneW : works.Pairwise (fun a b => pubTime a ≠ pubTime b) :=
      List.pairwise_map.mp hdist
    have hpermA : List.Perm (sortByDate works .asc) works :=
      List.perm_insertionSort (keepsOrder .asc) works
    have hpermDrev : List.Perm (sortByDate works .desc).reverse works :=
      (sortByDate works .desc).reverse_perm.trans
        (List.perm_insertionSort (keepsOrder .desc) works)
    have hsortA : List.Sorted (keepsOrder .asc) (sortByDate works .asc) :=
      sorted_insertionSort_of (keepsOrder .asc) (fun w => pubTime w ≠ JsNum.nan)
        (keepsOrder_total .asc) (keepsOrder_trans .asc) works hnum
    have hsortD : List.Sorted (keepsOrder .desc) (sortByDate works .desc) :=
      sorted_insertionSort_of (keepsOrder .desc) (fun w => pubTime w ≠ JsNum.nan)
        (keepsOrder_total .desc) (keepsOrder_trans .desc) works hnum
    have hsortDrev :
        (sortByDate works .desc).reverse.Pairwise (fun a b => keepsOrder .desc b a) :=
      List.pairwise_reverse.mpr hsortD
    have hneA : (sortByDate works .asc).Pairwise (fun a b => pubTime a ≠ pubTime b) :=
      (hpermA.pairwise_iff @hSymm).mpr hneW
    have hneDrev :
        (sortByDate works .desc).reverse.Pairwise (fun a b => pubTime a ≠ pubTime b) :=
      (hpermDrev.pairwise_iff @hSymm).mpr hneW
    have hsA : (sortByDate works .asc).Pairwise pubTimeLt := by
      refine (hsortA.and hneA).imp_of_mem ?_
      intro a b ha hb h
      exact pubTimeLt_of_asc_of_ne a b
        (hnum a (hpermA.mem_iff.mp ha)) (hnum b (hpermA.mem_iff.mp hb)) h.1 h.2
    have hsDrev : (sortByDate works .desc).reverse.Pairwise pubTimeLt := by
      refine (hsortDrev.and hneDrev).imp_of_mem ?_
      intro a b ha hb h
      exact pubTimeLt_of_asc_of_ne a b
        (hnum a (hpermDrev.mem_iff.mp ha)) (hnum b (hpermDrev.mem_iff.mp hb)) h.1 h.2
    haveI : IsAntisymm Work pubTimeLt := by
      constructor
      intro a b h1 h2
      exfalso
      unfold pubTimeLt at h1 h2
      cases ha : pubTime a <;> cases hb : pubTime b <;> rw [ha, hb] at h1 h2 <;>
        simp at h1 h2
      omega
    exact List.eq_of_perm_of_sorted (hpermDrev.trans hpermA.symm) hsDrev hsA
  · intro w h1 h2 h3
    simp [pubTime, h1, h2, h3]
    decide

/-- C7 (witness): the amended theorem at a two-work list with distinct
defined dates, all hypotheses discharged concretely. -/
theorem C7_witness :
    (∀ w ∈ [wd2021, wd2019], pubTime w ≠ JsNum.nan) ∧
    ([wd2021, wd2019].map pubTime).Nodup ∧
    (sortByDate [wd2021, wd2019] .desc).reverse = sortByDate [wd2021, wd2019] .asc ∧
    (sortByDate [wd2021, wd2019] SortOrder.asc).filter
        (fun w => pubTime w == pubTime wd2019) =
      [wd2021, wd2019].filter (fun w => pubTime w == pubTime wd2019) :=
  ⟨by decide, by decide,
   (C7_sortByDate_stable [wd2021, wd2019]).2.1 (by decide) (by decide),
   (C7_sortByDate_stable [wd2021, wd2019]).1 SortOrder.asc (pubTime wd2019)⟩
